import Mathlib

/-!
Shallow embedding of `src/app.py`, a Streamlit dashboard over a supply-chain
CSV: data loading (lines 36-47), role resolution by exact column-name match
(`safe_col`, lines 50-54 and 93-103), and the per-page aggregation queries
(Dashboard, RQ1, RQ2, RQ4).  Tabular values are modelled by `Cell` (rational
number, text, or missing), a dataframe by its column names plus a list of
rows, and pandas operations (`sum`, `mean`, `count`, `groupby`, `value_counts`,
`sort_values`, `head`, named aggregation) by executable Lean functions that
follow pandas' documented semantics: `skipna` reductions, `dropna` group keys,
named-aggregation column validation, and the default `read_csv` NA-token list.
Operations that can raise return `Except String`.
-/

/-- A scalar cell of the dataset: a number (modelled as a rational), a piece
of text, or missing (pandas NaN). -/
inductive Cell where
  | num (q : ℚ)
  | str (s : String)
  | missing
deriving DecidableEq

/-- A dataframe: column names plus rows of cells, positionally aligned with
the column list. -/
structure DataFrame where
  cols : List String
  rows : List (List Cell)
deriving DecidableEq

/-- Index of column `c` in the frame's column list (`df.columns.get_loc`). -/
def colIdx (df : DataFrame) (c : String) : Nat :=
  df.cols.findIdx (fun n => n = c)

/-- The cell of row `r` at column index `i`. -/
def cellAt (r : List Cell) (i : Nat) : Cell :=
  r.getD i Cell.missing

/-- The series `df[c]`: the cells of column `c`, row by row. -/
def DataFrame.col (df : DataFrame) (c : String) : List Cell :=
  df.rows.map (fun r => cellAt r (colIdx df c))

/-- app.py lines 50-54: return the first of `names` that is a column of the
frame, else None.  Exact, case-sensitive membership only. -/
def safe_col (cols : List String) (names : List String) : Option String :=
  names.find? (fun n => cols.contains n)

/-- app.py line 93. -/
def rev_col (cols : List String) : Option String :=
  safe_col cols ["Revenue", "Revenue generated", "Benefit per order", "Benefit", "Profit"]

/-- app.py line 94. -/
def price_col (cols : List String) : Option String :=
  safe_col cols ["Price", "Unit price", "Price per unit"]

/-- app.py line 95. -/
def qty_col (cols : List String) : Option String :=
  safe_col cols ["Quantity", "Order Item Quantity", "Number of products sold"]

/-- app.py line 96. -/
def prod_col (cols : List String) : Option String :=
  safe_col cols ["Product Name", "SKU", "Product", "Product type", "Product Category"]

/-- app.py line 97. -/
def supp_col (cols : List String) : Option String :=
  safe_col cols ["Supplier Name", "Supplier name"]

/-- app.py line 98. -/
def lead_col (cols : List String) : Option String :=
  safe_col cols ["Lead time", "Shipment Days", "Shipping Time", "Shipping days"]

/-- app.py line 99. -/
def defect_col (cols : List String) : Option String :=
  safe_col cols ["Defect rates", "Defects"]

/-- app.py line 100. -/
def carrier_col (cols : List String) : Option String :=
  safe_col cols ["Shipping carriers", "Shipping Mode", "Carrier"]

/-- app.py line 101. -/
def ship_cost_col (cols : List String) : Option String :=
  safe_col cols ["Shipping costs", "Freight Cost"]

/-- app.py line 102. -/
def cust_seg_col (cols : List String) : Option String :=
  safe_col cols ["Customer Segment", "Customer demographics", "Segment"]

/-- app.py line 103. -/
def region_col (cols : List String) : Option String :=
  safe_col cols ["Region", "Customer Country", "Market"]

/-- The non-missing cells of a series (what a `skipna` reduction sees). -/
def nonMissing (cells : List Cell) : List Cell :=
  cells.filter (fun c => c ≠ Cell.missing)

/-- Python `+` on cell values: numbers add, strings concatenate, a mixed pair
raises TypeError. -/
def cellAdd : Cell → Cell → Except String Cell
  | Cell.num a, Cell.num b => Except.ok (Cell.num (a + b))
  | Cell.str a, Cell.str b => Except.ok (Cell.str (a ++ b))
  | _, _ => Except.error "TypeError: unsupported operand types for +"

/-- pandas `Series.sum` with the default skipna=True: missing entries are
dropped, an empty or all-missing series sums to 0, and the remaining cells
are reduced with `+` (numbers add, strings concatenate). -/
def seriesSum (cells : List Cell) : Except String Cell :=
  match nonMissing cells with
  | [] => Except.ok (Cell.num 0)
  | c :: rest => rest.foldlM cellAdd c

/-- The numeric value of a cell, none for text or missing. -/
def numVal : Cell → Option ℚ
  | Cell.num q => some q
  | _ => none

/-- Whether a cell is numeric or missing (that is, carries no text). -/
def isNumOrMissing : Cell → Bool
  | Cell.str _ => false
  | _ => true

/-- The rational carried by a numeric cell, 0 otherwise. -/
def cellQ : Cell → ℚ
  | Cell.num q => q
  | _ => 0

/-- pandas `Series.mean` with skipna: missing entries are dropped, an empty or
all-missing series has mean NaN, a non-numeric entry raises TypeError. -/
def seriesMean (cells : List Cell) : Except String Cell :=
  match (nonMissing cells).mapM numVal with
  | some [] => Except.ok Cell.missing
  | some qs => Except.ok (Cell.num (qs.sum / (qs.length : ℚ)))
  | none => Except.error "TypeError: could not convert value to numeric"

/-- pandas `Series.count`: the number of non-missing entries. -/
def seriesCount (cells : List Cell) : Nat :=
  (nonMissing cells).length

/-- The group keys of `groupby` with the default dropna=True: the distinct
non-missing values of the key column. -/
def groupKeys (cells : List Cell) : List Cell :=
  (nonMissing cells).dedup

/-- Comparator for `sort_values(ascending=False)`: larger values first and
missing placed last (na_position defaults to "last").  The claims below only
sort keys of a single kind; across kinds a fixed order (numbers, then text,
then missing) keeps the comparator total. -/
def descBefore (a b : Cell) : Bool :=
  match a, b with
  | Cell.num x, Cell.num y => decide (y ≤ x)
  | Cell.num _, Cell.str _ => true
  | Cell.num _, Cell.missing => true
  | Cell.str _, Cell.num _ => false
  | Cell.str x, Cell.str y => decide (y ≤ x)
  | Cell.str _, Cell.missing => true
  | Cell.missing, Cell.num _ => false
  | Cell.missing, Cell.str _ => false
  | Cell.missing, Cell.missing => true

/-- `sort_values(key_column, ascending=False)`: any sort by `descBefore` on
the key column.  The order of rows with equal keys is unspecified in pandas
(the default quicksort is not stable) and no claim below depends on it. -/
def sortValuesDesc (key : α → Cell) (l : List α) : List α :=
  List.insertionSort (fun x y => descBefore (key x) (key y) = true) l

/-- The rows of the group with key `k` under grouping column `kc`. -/
def groupRows (df : DataFrame) (kc : String) (k : Cell) : List (List Cell) :=
  df.rows.filter (fun r => cellAt r (colIdx df kc) = k)

/-- `df.groupby(kc)[vc].sum()`: one (key, sum) pair per distinct non-missing
key, each sum a skipna reduction over that group's `vc` cells. -/
def groupbySum (df : DataFrame) (kc vc : String) : Except String (List (Cell × Cell)) :=
  (groupKeys (df.col kc)).mapM (fun k =>
    (seriesSum ((groupRows df kc k).map (fun r => cellAt r (colIdx df vc)))).map
      (fun s => (k, s)))

/-- app.py line 111: `df[rev_col].sum() if rev_col else np.nan`. -/
def total_rev (df : DataFrame) : Except String Cell :=
  match rev_col df.cols with
  | some rc => seriesSum (df.col rc)
  | none => Except.ok Cell.missing

/-- app.py line 121: revenue grouped by product, sorted descending by revenue,
top 20. -/
def rev_by_prod (df : DataFrame) (pc rc : String) : Except String (List (Cell × Cell)) :=
  (groupbySum df pc rc).map (fun g => (sortValuesDesc (fun p => p.2) g).take 20)

/-- pandas `value_counts()`: occurrences of each distinct non-missing value,
sorted descending by the counts. -/
def value_counts (cells : List Cell) : List (Cell × Nat) :=
  sortValuesDesc (fun p => Cell.num (p.2 : ℚ))
    ((groupKeys cells).map (fun k => (k, (cells.filter (fun c => c = k)).length)))

/-- app.py lines 128-129: carrier distribution. -/
def carrier_counts (df : DataFrame) (cc : String) : List (Cell × Nat) :=
  value_counts (df.col cc)

/-- One output row of the RQ1 grouping (app.py lines 161-164). -/
structure RQ1Row where
  product : Cell
  total_revenue : Cell
  items_sold : Cell
deriving DecidableEq

/-- app.py line 163: `items_sold=(qty_col, "sum") if qty_col else (rev_col,
"count")` — the fallback is pandas "count", the number of NON-MISSING revenue
cells of the group, not the group's row count. -/
def rq1_items_sold (df : DataFrame) (rc : String) (qc : Option String)
    (group : List (List Cell)) : Except String Cell :=
  match qc with
  | some q => seriesSum (group.map (fun r => cellAt r (colIdx df q)))
  | none =>
    Except.ok (Cell.num ((seriesCount (group.map (fun r => cellAt r (colIdx df rc)))) : ℚ))

/-- app.py lines 161-164: group by product, total revenue and items sold per
group, sorted descending by total revenue, top `top_n`. -/
def rq1_grouped (df : DataFrame) (pc rc : String) (qc : Option String) (top_n : Nat) :
    Except String (List RQ1Row) := do
  let gs ← (groupKeys (df.col pc)).mapM (fun k => do
    let tr ← seriesSum ((groupRows df pc k).map (fun r => cellAt r (colIdx df rc)))
    let it ← rq1_items_sold df rc qc (groupRows df pc k)
    pure (RQ1Row.mk k tr it))
  pure ((sortValuesDesc (fun g => g.total_revenue) gs).take top_n)

/-- app.py line 170: `focus = grouped[prod_col].head(10).tolist()` — the first
10 products of the ALREADY top-N-truncated table. -/
def rq1_focus (df : DataFrame) (pc rc : String) (qc : Option String) (top_n : Nat) :
    Except String (List Cell) :=
  (rq1_grouped df pc rc qc top_n).map (fun g => (g.map (fun row => row.product)).take 10)

/-- app.py line 171: `sub = df[df[prod_col].isin(focus)]`. -/
def rq1_sub (df : DataFrame) (pc : String) (focus : List Cell) : List (List Cell) :=
  df.rows.filter (fun r => focus.contains (cellAt r (colIdx df pc)))

/-- One output row of the RQ2 supplier stats (app.py lines 180-184). -/
structure RQ2Row where
  supplier : Cell
  avg_lead : Cell
  avg_defect : Cell
  count : Nat
deriving DecidableEq

/-- app.py lines 180-184.  pandas named aggregation first validates that every
referenced column exists in the frame and raises KeyError otherwise; the count
spec at line 183 is `("__dummy__", "size")`, so "__dummy__" is always
referenced.  `avg_lead` falls back to `(supp_col, "count")` when the lead-time
role is unresolved, and likewise `avg_defect`. -/
def rq2_stats (df : DataFrame) (sc : String) (lc dc : Option String) :
    Except String (List RQ2Row) :=
  if [lc.getD sc, dc.getD sc, "__dummy__"].all (fun c => df.cols.contains c) then
    (groupKeys (df.col sc)).mapM (fun k => do
      let group := groupRows df sc k
      let al ← match lc with
        | some l => seriesMean (group.map (fun r => cellAt r (colIdx df l)))
        | none => Except.ok (Cell.num ((seriesCount (group.map (fun r => cellAt r (colIdx df sc)))) : ℚ))
      let ad ← match dc with
        | some d => seriesMean (group.map (fun r => cellAt r (colIdx df d)))
        | none => Except.ok (Cell.num ((seriesCount (group.map (fun r => cellAt r (colIdx df sc)))) : ℚ))
      pure (RQ2Row.mk k al ad group.length))
  else Except.error "KeyError: a named aggregation references a column that does not exist"

/-- Outcome of rendering one page: a rendered result, a user-facing notice, or
an exception that escaped the page body (no try/except surrounds the views). -/
inductive ViewOutcome (α : Type) where
  | rendered (t : α)
  | notice (msg : String)
  | uncaught (err : String)
deriving DecidableEq

/-- app.py lines 177-194: the Suppliers (RQ2) page.  Unresolved supplier role
degrades to a notice; the aggregation itself runs outside any try/except, so
an error it raises escapes. -/
def suppliers_view (df : DataFrame) : ViewOutcome (List RQ2Row) :=
  match supp_col df.cols with
  | none => ViewOutcome.notice "Supplier column not found."
  | some sc =>
    match rq2_stats df sc (lead_col df.cols) (defect_col df.cols) with
    | Except.ok t => ViewOutcome.rendered (sortValuesDesc (fun r => r.avg_lead) t)
    | Except.error e => ViewOutcome.uncaught e

/-- app.py line 216: customer-segment revenue, sorted descending. -/
def seg (df : DataFrame) (sc rc : String) : Except String (List (Cell × Cell)) :=
  (groupbySum df sc rc).map (fun g => sortValuesDesc (fun p => p.2) g)

/-- The three mutually exclusive acquisition sources. -/
inductive LoadSource where
  | localFile
  | upload (content : String)
  | url (u : String)
deriving DecidableEq

/-- app.py lines 38-45: source selection.  `use_local` wins, then a present
upload, then a non-empty URL string (Python truthiness of `data_url`); with
none of the three, no source is chosen. -/
def chooseSource (use_local : Bool) (uploaded : Option String) (data_url : String) :
    Option LoadSource :=
  if use_local then some LoadSource.localFile
  else
    match uploaded with
    | some b => some (LoadSource.upload b)
    | none => if data_url = "" then none else some (LoadSource.url data_url)

/-- Outcome of pressing the load button. -/
inductive LoadOutcome where
  | loaded (df : DataFrame)
  | warning (msg : String)
  | errorMsg (msg : String)
  | uncaught (err : String)
deriving DecidableEq

/-- app.py lines 36-47: the load handler.  The try block chooses a source and
fetches it (`fetch` models the three loaders, which may raise); the except
clause converts any raised error into a sidebar error message, and the
no-source branch emits the sidebar warning and creates no dataset. -/
def load_btn_action (use_local : Bool) (uploaded : Option String) (data_url : String)
    (fetch : LoadSource → Except String DataFrame) : LoadOutcome :=
  match chooseSource use_local uploaded data_url with
  | none => LoadOutcome.warning "Please upload a file or paste a URL."
  | some s =>
    match fetch s with
    | Except.ok d => LoadOutcome.loaded d
    | Except.error e => LoadOutcome.errorMsg e

/-- The default NA tokens of `pandas.read_csv`; each becomes NaN at parse
time.  Note that "N/A" is among them. -/
def na_tokens : List String :=
  ["", "#N/A", "#N/A N/A", "#NA", "-1.#IND", "-1.#QNAN", "-NaN", "-nan",
   "1.#IND", "1.#QNAN", "<NA>", "N/A", "NA", "NULL", "NaN", "None", "n/a",
   "nan", "null"]

/-- The value of a decimal digit character, none for any other character. -/
def digitVal? (c : Char) : Option Nat :=
  if c.isDigit then some (c.toNat - 48) else none

/-- Accumulate a digit string left to right. -/
def digitsAux : List Char → Nat → Option Nat
  | [], acc => some acc
  | c :: cs, acc =>
    match digitVal? c with
    | some d => digitsAux cs (acc * 10 + d)
    | none => none

/-- A non-empty all-digit string as a natural number. -/
def digitsToNat? : List Char → Option Nat
  | [] => none
  | c :: cs => digitsAux (c :: cs) 0

/-- Split a character list at a single dot: integer part plus optional
fractional part; two or more dots fail. -/
def splitDot : List Char → Option (List Char × Option (List Char))
  | [] => some ([], none)
  | c :: cs =>
    match splitDot cs with
    | none => none
    | some (a, some b) => if c = '.' then none else some (c :: a, some b)
    | some (a, none) => if c = '.' then some ([], some a) else some (c :: a, none)

/-- Unsigned decimal literal, with an optional fractional part. -/
def parseUnsignedChars (cs : List Char) : Option ℚ :=
  match splitDot cs with
  | none => none
  | some (intPart, none) => (digitsToNat? intPart).map (fun n => (n : ℚ))
  | some (intPart, some fracPart) =>
    match digitsToNat? intPart, digitsToNat? fracPart with
    | some x, some y => some ((x : ℚ) + (y : ℚ) / ((10 : ℚ) ^ fracPart.length))
    | _, _ => none

/-- Decimal numeric literal as the CSV parser recognises one (optional sign,
digits, optional fractional part). -/
def parseNumToken (s : String) : Option ℚ :=
  match s.data with
  | '-' :: rest => (parseUnsignedChars rest).map (fun q => -q)
  | '+' :: rest => parseUnsignedChars rest
  | _ => parseUnsignedChars s.data

/-- Column typing of `read_csv`: NA tokens become missing in every case; if
every other token of the column is numeric the column is numeric, otherwise
it is an object column and every non-NA token stays text (numeric-looking
tokens included). -/
def parseColumn (raw : List String) : List Cell :=
  if raw.all (fun t => na_tokens.contains t || (parseNumToken t).isSome) then
    raw.map (fun t =>
      if na_tokens.contains t then Cell.missing
      else
        match parseNumToken t with
        | some q => Cell.num q
        | none => Cell.missing)
  else
    raw.map (fun t => if na_tokens.contains t then Cell.missing else Cell.str t)

/-! ## Concrete frames used as test inputs -/

/-- A dataset with a resolved supplier and lead-time column and, like every
real dataset, no "__dummy__" column. -/
def dfSupplier : DataFrame :=
  ⟨["Supplier Name", "Lead time"], [[Cell.str "S1", Cell.num 3]]⟩

/-- A dataset that does carry a "__dummy__" column (so the named-aggregation
validation passes) but whose lead-time column is textual. -/
def dfSupplierText : DataFrame :=
  ⟨["Supplier Name", "Lead time", "__dummy__"], [[Cell.str "S1", Cell.str "fast", Cell.num 0]]⟩

/-- Two rows of product "A", one of them with a missing revenue value. -/
def dfRevMissing : DataFrame :=
  ⟨["Product Name", "Revenue"],
   [[Cell.str "A", Cell.num 100], [Cell.str "A", Cell.missing]]⟩

/-- Six distinct products with distinct revenues, and a price column. -/
def dfSix : DataFrame :=
  ⟨["Product Name", "Revenue", "Price"],
   [[Cell.str "P1", Cell.num 6, Cell.num 1], [Cell.str "P2", Cell.num 5, Cell.num 1],
    [Cell.str "P3", Cell.num 4, Cell.num 1], [Cell.str "P4", Cell.num 3, Cell.num 1],
    [Cell.str "P5", Cell.num 2, Cell.num 1], [Cell.str "P6", Cell.num 1, Cell.num 1]]⟩

/-- A frame whose revenue column was parsed from the raw tokens "100" and
"abc": the non-NA text makes the whole column textual. -/
def dfTextRevenue : DataFrame :=
  ⟨["Revenue"], (parseColumn ["100", "abc"]).map (fun c => [c])⟩

/-- One row of product "A" and one row with a missing product value. -/
def dfMixedKeys : DataFrame :=
  ⟨["Product Name", "Revenue"], [[Cell.str "A", Cell.num 5], [Cell.missing, Cell.num 7]]⟩

/-- Two products with distinct revenues, one row each. -/
def dfTwoProducts : DataFrame :=
  ⟨["Product Name", "Revenue"], [[Cell.str "B", Cell.num 1], [Cell.str "C", Cell.num 9]]⟩

/-! ## General lemmas about the embedding -/

/-- A successful `find?` splits its list at the first match: everything before
the hit fails the test. -/
theorem find?_some_first_match {α : Type} (p : α → Bool) (l : List α) (a : α)
    (h : l.find? p = some a) :
    p a = true ∧ ∃ pre post, l = pre ++ a :: post ∧ ∀ x ∈ pre, p x = false := by
  induction l with
  | nil => simp at h
  | cons x xs ih =>
    by_cases hx : p x = true
    · rw [List.find?_cons_of_pos _ hx] at h
      cases h
      exact ⟨hx, [], xs, rfl, by simp⟩
    · rw [List.find?_cons_of_neg _ hx] at h
      obtain ⟨hp, pre, post, heq, hpre⟩ := ih h
      refine ⟨hp, x :: pre, post, by rw [heq]; rfl, ?_⟩
      intro y hy
      rcases List.mem_cons.mp hy with hy | hy
      · simpa [hy] using hx
      · exact hpre y hy

/-! ## C1 -/

/-- C1: for every set of dataset column names and every candidate list (hence
every role of the fixed role table), `safe_col` returns the first candidate
that is an exact, case-sensitive member of the column set — everything earlier
in the priority list is not a column — and returns none exactly when no
candidate is a column, so no fuzzy, partial or case-normalised match can ever
be produced. -/
theorem role_resolution_first_exact (cols names : List String) :
    (∀ c, safe_col cols names = some c →
        c ∈ cols ∧ ∃ pre post, names = pre ++ c :: post ∧ ∀ n ∈ pre, n ∉ cols) ∧
    (safe_col cols names = none ↔ ∀ n ∈ names, n ∉ cols) := by
  constructor
  · intro c h
    obtain ⟨hp, pre, post, heq, hpre⟩ := find?_some_first_match _ _ _ h
    refine ⟨by simpa using hp, pre, post, heq, fun n hn => ?_⟩
    have := hpre n hn
    simpa using this
  · rw [safe_col, List.find?_eq_none]
    simp

/-- Witness for C1: on a frame whose columns are "Order ID" and "Benefit per
order", the revenue role resolves to "Benefit per order", the third candidate,
with both higher-priority candidates absent from the columns. -/
theorem role_resolution_first_exact_witness :
    "Benefit per order" ∈ ["Order ID", "Benefit per order"] ∧
    ∃ pre post,
      ["Revenue", "Revenue generated", "Benefit per order", "Benefit", "Profit"] =
        pre ++ "Benefit per order" :: post ∧
      ∀ n ∈ pre, n ∉ ["Order ID", "Benefit per order"] :=
  (role_resolution_first_exact ["Order ID", "Benefit per order"]
    ["Revenue", "Revenue generated", "Benefit per order", "Benefit", "Profit"]).1
    "Benefit per order" (by rfl)

/-! ## C9 -/

/-- C9: the load action uses exactly one acquisition source, by fixed
priority: the local-path flag beats an uploaded file, which beats a non-empty
URL; with none of the three supplied the handler emits the sidebar warning
and no dataset is produced. -/
theorem load_source_priority (use_local : Bool) (uploaded : Option String)
    (data_url : String) :
    (use_local = true →
        chooseSource use_local uploaded data_url = some LoadSource.localFile) ∧
    (∀ b, use_local = false → uploaded = some b →
        chooseSource use_local uploaded data_url = some (LoadSource.upload b)) ∧
    (use_local = false → uploaded = none → data_url ≠ "" →
        chooseSource use_local uploaded data_url = some (LoadSource.url data_url)) ∧
    (use_local = false → uploaded = none → data_url = "" →
        ∀ fetch, load_btn_action use_local uploaded data_url fetch =
          LoadOutcome.warning "Please upload a file or paste a URL.") := by
  refine ⟨fun h => ?_, fun b h hb => ?_, fun h hn hu => ?_, fun h hn hu fetch => ?_⟩
  · subst h; rfl
  · subst h; subst hb; rfl
  · subst h; subst hn; simp [chooseSource, hu]
  · subst h; subst hn; subst hu; rfl

/-- Witness for C9: each priority case at a concrete input, and the warning
outcome when no source is supplied even though the fetch function would
raise. -/
theorem load_source_priority_witness :
    chooseSource true (some "payload") "http_x" = some LoadSource.localFile ∧
    chooseSource false (some "payload") "http_x" = some (LoadSource.upload "payload") ∧
    chooseSource false none "http_x" = some (LoadSource.url "http_x") ∧
    load_btn_action false none "" (fun _ => Except.error "boom") =
      LoadOutcome.warning "Please upload a file or paste a URL." :=
  ⟨(load_source_priority true (some "payload") "http_x").1 rfl,
   (load_source_priority false (some "payload") "http_x").2.1 "payload" rfl rfl,
   (load_source_priority false none "http_x").2.2.1 rfl rfl (by decide),
   (load_source_priority false none "").2.2.2 rfl rfl rfl (fun _ => Except.error "boom")⟩

/-! ## C2 -/

/-- C2 (code bug): on a dataset with a resolved supplier role and a resolved
lead-time column — and, like every real dataset, no "__dummy__" column — the
supplier-stats aggregation of lines 180-184 raises KeyError immediately,
because its count spec references the nonexistent column "__dummy__"; no
grouped table with means and row counts is ever produced. -/
theorem rq2_stats_dummy_keyerror :
    supp_col dfSupplier.cols = some "Supplier Name" ∧
    lead_col dfSupplier.cols = some "Lead time" ∧
    dfSupplier.cols.contains "__dummy__" = false ∧
    rq2_stats dfSupplier "Supplier Name" (some "Lead time") none =
      Except.error "KeyError: a named aggregation references a column that does not exist" :=
  ⟨rfl, rfl, rfl, rfl⟩

/-! ## C3 counterexample -/

/-- C3 counterexample: two datasets on which the Suppliers view's aggregation
raises an error that no handler converts into a user-facing message.  On
`dfSupplier` the named aggregation raises KeyError for the "__dummy__" count
column; on `dfSupplierText` (which even carries a "__dummy__" column) the
mean over the textual lead-time column raises TypeError.  Both escape the
view uncaught, contradicting the claim that every raised error in a view's
aggregation is caught at the point of use. -/
theorem suppliers_view_uncaught_counterexample :
    suppliers_view dfSupplier =
      ViewOutcome.uncaught "KeyError: a named aggregation references a column that does not exist" ∧
    suppliers_view dfSupplierText =
      ViewOutcome.uncaught "TypeError: could not convert value to numeric" :=
  ⟨rfl, rfl⟩

/-! ## C4 counterexample -/

/-- C4 counterexample: the token "abc" cannot be interpreted as a number, yet
the KPI total-revenue sum over the column parsed from ["100", "abc"] does not
exclude it: the column parses as text, and the sum concatenates the strings
to "100abc" instead of yielding the number 100. -/
theorem total_rev_text_not_excluded_counterexample :
    rev_col dfTextRevenue.cols = some "Revenue" ∧
    parseNumToken "abc" = none ∧
    total_rev dfTextRevenue = Except.ok (Cell.str "100abc") ∧
    total_rev dfTextRevenue ≠ Except.ok (Cell.num 100) :=
  ⟨rfl, rfl, rfl, fun h => Cell.noConfusion (Except.ok.inj h)⟩

/-! ## C6 counterexample -/

/-- C6 counterexample: with the quantity role unresolved, the RQ1 fallback is
pandas "count" on the revenue column, which skips missing values: the single
product group of `dfRevMissing` has 2 rows but items_sold = 1, so the
fallback is not a row count per group. -/
theorem rq1_items_not_rowcount_counterexample :
    qty_col dfRevMissing.cols = none ∧
    rq1_grouped dfRevMissing "Product Name" "Revenue" none 10 =
      Except.ok [RQ1Row.mk (Cell.str "A") (Cell.num 100) (Cell.num 1)] ∧
    (groupRows dfRevMissing "Product Name" (Cell.str "A")).length = 2 ∧
    Cell.num 1 ≠ Cell.num ((2 : Nat) : ℚ) :=
  ⟨rfl, rfl, rfl, by norm_num⟩

/-! ## C7 counterexample -/

/-- C7 counterexample: on `dfSix` the top-10 product groups of the
revenue-by-product query are all six products (first conjunct), "P6" among
them; but with the user-selected N = 5 the focus list of line 170 holds only
the top five products, and the restricted frame of line 171 excludes the row
of "P6" — so the restriction does depend on the top-N value and is not the
top-10 set. -/
theorem rq1_focus_counterexample :
    rq1_grouped dfSix "Product Name" "Revenue" none 10 =
      Except.ok [RQ1Row.mk (Cell.str "P1") (Cell.num 6) (Cell.num 1),
                 RQ1Row.mk (Cell.str "P2") (Cell.num 5) (Cell.num 1),
                 RQ1Row.mk (Cell.str "P3") (Cell.num 4) (Cell.num 1),
                 RQ1Row.mk (Cell.str "P4") (Cell.num 3) (Cell.num 1),
                 RQ1Row.mk (Cell.str "P5") (Cell.num 2) (Cell.num 1),
                 RQ1Row.mk (Cell.str "P6") (Cell.num 1) (Cell.num 1)] ∧
    rq1_focus dfSix "Product Name" "Revenue" none 5 =
      Except.ok [Cell.str "P1", Cell.str "P2", Cell.str "P3", Cell.str "P4", Cell.str "P5"] ∧
    [Cell.str "P6", Cell.num 1, Cell.num 1] ∈ dfSix.rows ∧
    [Cell.str "P6", Cell.num 1, Cell.num 1] ∉
      rq1_sub dfSix "Product Name"
        [Cell.str "P1", Cell.str "P2", Cell.str "P3", Cell.str "P4", Cell.str "P5"] :=
  ⟨rfl, rfl, by decide, by decide⟩

/-! ## Lemmas about the sort comparator and sorting -/

/-- The descending comparator is total. -/
theorem descBefore_total (a b : Cell) :
    descBefore a b = true ∨ descBefore b a = true := by
  cases a <;> cases b <;> simp [descBefore] <;> exact le_total _ _

/-- The descending comparator is transitive. -/
theorem descBefore_trans (a b c : Cell) (h1 : descBefore a b = true)
    (h2 : descBefore b c = true) : descBefore a c = true := by
  cases a <;> cases b <;> cases c <;> simp_all [descBefore] <;> exact le_trans h2 h1

/-- `sort_values` output is sorted by the descending comparator on the key. -/
theorem sortValuesDesc_sorted {α : Type} (key : α → Cell) (l : List α) :
    List.Sorted (fun x y => descBefore (key x) (key y) = true) (sortValuesDesc key l) := by
  haveI t1 : IsTotal α (fun x y => descBefore (key x) (key y) = true) :=
    ⟨fun x y => descBefore_total (key x) (key y)⟩
  haveI t2 : IsTrans α (fun x y => descBefore (key x) (key y) = true) :=
    ⟨fun x y z => descBefore_trans (key x) (key y) (key z)⟩
  exact List.sorted_insertionSort _ l

/-- `sort_values` output is a permutation of its input. -/
theorem sortValuesDesc_perm {α : Type} (key : α → Cell) (l : List α) :
    (sortValuesDesc key l).Perm l :=
  List.perm_insertionSort _ l

/-! ## Lemmas about series reductions over numeric columns -/

/-- Bind on a successful Except computes the continuation. -/
theorem except_bind_ok {α β : Type} (a : α) (f : α → Except String β) :
    (Except.ok a >>= f : Except String β) = f a := rfl

/-- Pure for Except is ok. -/
theorem except_pure_eq_ok {α : Type} (a : α) :
    (pure a : Except String α) = Except.ok a := rfl

/-- Folding Python + from a number over numbers adds them all. -/
theorem foldlM_cellAdd_map (qs : List ℚ) (a : ℚ) :
    List.foldlM cellAdd (Cell.num a) (qs.map Cell.num) =
      Except.ok (Cell.num (a + qs.sum)) := by
  induction qs generalizing a with
  | nil => simp [except_pure_eq_ok]
  | cons q qs ih => simp [cellAdd, except_bind_ok, ih, add_assoc]

/-- Over a text-free series, dropping the missing cells leaves exactly the
numeric cells. -/
theorem nonMissing_eq_map (cells : List Cell)
    (h : ∀ c ∈ cells, isNumOrMissing c = true) :
    nonMissing cells = (cells.filterMap numVal).map Cell.num := by
  induction cells with
  | nil => rfl
  | cons c cs ih =>
    have hc := h c (List.mem_cons_self c cs)
    have ih' := ih (fun x hx => h x (List.mem_cons_of_mem c hx))
    cases c with
    | num q => simpa [nonMissing, numVal, List.filter_cons] using ih'
    | str s => exact absurd hc (by simp [isNumOrMissing])
    | missing => simpa [nonMissing, numVal, List.filter_cons] using ih'

/-- `Series.sum` over a text-free series is the rational sum of its numeric
values, the missing ones excluded. -/
theorem seriesSum_num (cells : List Cell) (h : ∀ c ∈ cells, isNumOrMissing c = true) :
    seriesSum cells = Except.ok (Cell.num (cells.filterMap numVal).sum) := by
  unfold seriesSum
  rw [nonMissing_eq_map cells h]
  cases hq : cells.filterMap numVal with
  | nil => simp
  | cons q qs => simp [foldlM_cellAdd_map]

/-- A `mapM` all of whose steps succeed returns the map of the results. -/
theorem mapM_ok {α β : Type} (l : List α) (f : α → Except String β) (g : α → β)
    (h : ∀ a ∈ l, f a = Except.ok (g a)) : l.mapM f = Except.ok (l.map g) := by
  induction l with
  | nil => rfl
  | cons a l ih =>
    rw [List.mapM_cons, h a (List.mem_cons_self a l),
      ih (fun x hx => h x (List.mem_cons_of_mem a hx))]
    rfl

/-! ## Lemmas about group keys -/

/-- Group keys are never the missing value. -/
theorem groupKeys_ne_missing {cells : List Cell} {k : Cell} (h : k ∈ groupKeys cells) :
    k ≠ Cell.missing := by
  have h1 := List.mem_dedup.mp h
  have h2 := List.of_mem_filter h1
  simpa using h2

/-- Group keys are duplicate-free. -/
theorem groupKeys_nodup (cells : List Cell) : (groupKeys cells).Nodup :=
  List.nodup_dedup _

/-- A cell is a group key exactly when it occurs in the column and is not
missing. -/
theorem mem_groupKeys {cells : List Cell} {k : Cell} :
    k ∈ groupKeys cells ↔ k ∈ cells ∧ k ≠ Cell.missing := by
  simp [groupKeys, nonMissing, List.mem_dedup, List.mem_filter]

/-- Bind on a failed Except propagates the error. -/
theorem except_bind_error {α β : Type} (e : String) (f : α → Except String β) :
    (Except.error e >>= f : Except String β) = Except.error e := rfl

/-- Pointwise-equal step functions give the same mapM. -/
theorem mapM_congr {α β : Type} {l : List α} {f g : α → Except String β}
    (h : ∀ a ∈ l, f a = g a) : l.mapM f = l.mapM g := by
  induction l with
  | nil => rfl
  | cons a l ih =>
    rw [List.mapM_cons, List.mapM_cons, h a (List.mem_cons_self a l),
      ih (fun x hx => h x (List.mem_cons_of_mem a hx))]

/-- Every element of a successful mapM's output comes from some input. -/
theorem mapM_ok_inv {α β : Type} {l : List α} {f : α → Except String β} {bs : List β}
    (h : l.mapM f = Except.ok bs) : ∀ b ∈ bs, ∃ a ∈ l, f a = Except.ok b := by
  induction l generalizing bs with
  | nil =>
    cases h
    intro b hb
    simp at hb
  | cons a l ih =>
    rw [List.mapM_cons] at h
    cases hfa : f a with
    | error e =>
      rw [hfa, except_bind_error] at h
      exact Except.noConfusion h
    | ok b0 =>
      rw [hfa, except_bind_ok] at h
      cases hrest : l.mapM f with
      | error e =>
        rw [hrest, except_bind_error] at h
        exact Except.noConfusion h
      | ok bs0 =>
        rw [hrest, except_bind_ok, except_pure_eq_ok] at h
        cases h
        intro b hb
        rcases List.mem_cons.mp hb with hb | hb
        · exact ⟨a, List.mem_cons_self a l, by rw [hfa, hb]⟩
        · obtain ⟨x, hx, hfx⟩ := ih hrest b hb
          exact ⟨x, List.mem_cons_of_mem a hx, hfx⟩

/-- Deciding membership in a cons distributes over or. -/
theorem decide_mem_cons {α : Type} [DecidableEq α] (a k : α) (ks : List α) :
    decide (a ∈ k :: ks) = (decide (a = k) || decide (a ∈ ks)) := by
  by_cases h1 : a = k <;> by_cases h2 : a ∈ ks <;> simp [h1, h2]

/-- Summing the values drawn from a filter by a disjunction of disjoint tests
splits into the two filters' sums. -/
theorem filterMap_sum_or {α : Type} (p q : α → Bool) (f : α → Option ℚ) (l : List α)
    (hd : ∀ x ∈ l, ¬(p x = true ∧ q x = true)) :
    ((l.filter (fun x => p x || q x)).filterMap f).sum
      = ((l.filter p).filterMap f).sum + ((l.filter q).filterMap f).sum := by
  induction l with
  | nil => simp
  | cons a l ih =>
    have hd' := fun x hx => hd x (List.mem_cons_of_mem a hx)
    have ha := hd a (List.mem_cons_self a l)
    rw [List.filter_cons, List.filter_cons, List.filter_cons]
    by_cases hp : p a = true
    · have hq : q a = false := by
        cases hqv : q a
        · rfl
        · exact absurd ⟨hp, hqv⟩ ha
      cases hf : f a with
      | none => simp [hp, hq, hf, List.filterMap_cons, ih hd']
      | some v =>
        simp only [hp, hq, Bool.true_or, if_true, if_false, Bool.false_eq_true,
          List.filterMap_cons, hf, List.sum_cons, ih hd']
        ring
    · have hp' : p a = false := by
        cases hpv : p a
        · rfl
        · exact absurd hpv hp
      by_cases hq : q a = true
      · cases hf : f a with
        | none => simp [hp', hq, hf, List.filterMap_cons, ih hd']
        | some v =>
          simp only [hp', hq, Bool.false_or, if_true, if_false, Bool.false_eq_true,
            List.filterMap_cons, hf, List.sum_cons, ih hd']
          ring
      · have hq' : q a = false := by
          cases hqv : q a
          · rfl
          · exact absurd hqv hq
        simp [hp', hq', ih hd']

/-- Summing a per-key group total over a duplicate-free key list equals a
single sum over the rows whose key lies in the list. -/
theorem sum_over_keys {α : Type} (key : α → Cell) (f : α → Option ℚ) (l : List α) :
    ∀ ks : List Cell, ks.Nodup →
      (ks.map (fun k => ((l.filter (fun x => key x = k)).filterMap f).sum)).sum
        = ((l.filter (fun x => decide (key x ∈ ks))).filterMap f).sum := by
  intro ks
  induction ks with
  | nil => intro _; simp
  | cons k ks ih =>
    intro hnd
    obtain ⟨hk, hnd'⟩ := List.nodup_cons.mp hnd
    rw [List.map_cons, List.sum_cons, ih hnd']
    have hcongr : l.filter (fun x => decide (key x ∈ k :: ks))
        = l.filter (fun x => decide (key x = k) || decide (key x ∈ ks)) := by
      apply List.filter_congr
      intro x _
      exact decide_mem_cons (key x) k ks
    rw [hcongr, filterMap_sum_or]
    intro x _
    rintro ⟨h1, h2⟩
    rw [decide_eq_true_eq] at h1 h2
    exact hk (h1 ▸ h2)

/-! ## Lemmas about dropping rows with a missing group key -/

/-- The key column of the frame restricted to rows with a non-missing key is
the filtered key column. -/
theorem col_filter_key (df : DataFrame) (kc : String) :
    DataFrame.col ⟨df.cols, df.rows.filter (fun r => cellAt r (colIdx df kc) ≠ Cell.missing)⟩ kc
      = (df.col kc).filter (fun c => c ≠ Cell.missing) := by
  simp only [DataFrame.col, colIdx, List.filter_map]
  rfl

/-- Dropping rows with a missing key leaves the group keys unchanged. -/
theorem groupKeys_col_filter_key (df : DataFrame) (kc : String) :
    groupKeys (DataFrame.col
        ⟨df.cols, df.rows.filter (fun r => cellAt r (colIdx df kc) ≠ Cell.missing)⟩ kc)
      = groupKeys (df.col kc) := by
  rw [col_filter_key]
  simp [groupKeys, nonMissing, List.filter_filter]

/-- Dropping rows with a missing key leaves every group's rows unchanged. -/
theorem groupRows_filter_key (df : DataFrame) (kc : String) (k : Cell)
    (hk : k ≠ Cell.missing) :
    groupRows ⟨df.cols, df.rows.filter (fun r => cellAt r (colIdx df kc) ≠ Cell.missing)⟩ kc k
      = groupRows df kc k := by
  show (df.rows.filter _).filter _ = _
  rw [List.filter_filter]
  apply List.filter_congr
  intro r _
  by_cases h : cellAt r (colIdx df kc) = k
  · simp [colIdx] at h ⊢
    simp [h, hk]
  · simp [colIdx] at h ⊢
    simp [h]

/-- `groupby(kc)[vc].sum()` ignores rows with a missing key. -/
theorem groupbySum_drop_missing (df : DataFrame) (kc vc : String) :
    groupbySum ⟨df.cols, df.rows.filter (fun r => cellAt r (colIdx df kc) ≠ Cell.missing)⟩ kc vc
      = groupbySum df kc vc := by
  unfold groupbySum
  rw [groupKeys_col_filter_key]
  apply mapM_congr
  intro k hk
  rw [groupRows_filter_key df kc k (groupKeys_ne_missing hk)]
  rfl

/-- `value_counts` of a column with the missing entries dropped. -/
theorem value_counts_drop_missing (cells : List Cell) :
    value_counts (cells.filter (fun c => c ≠ Cell.missing)) = value_counts cells := by
  unfold value_counts
  have hkeys : groupKeys (cells.filter (fun c => c ≠ Cell.missing)) = groupKeys cells := by
    simp [groupKeys, nonMissing, List.filter_filter]
  rw [hkeys]
  congr 1
  apply List.map_congr_left
  intro k hk
  have hkm := groupKeys_ne_missing hk
  rw [List.filter_filter]
  have : cells.filter (fun c => decide (c = k) && decide (c ≠ Cell.missing))
      = cells.filter (fun c => c = k) := by
    apply List.filter_congr
    intro c _
    by_cases h : c = k <;> simp [h, hkm]
  rw [this]

/-- The RQ1 grouping ignores rows with a missing product value. -/
theorem rq1_grouped_drop_missing (df : DataFrame) (pc rc : String) (qc : Option String)
    (n : Nat) :
    rq1_grouped ⟨df.cols, df.rows.filter (fun r => cellAt r (colIdx df pc) ≠ Cell.missing)⟩
        pc rc qc n
      = rq1_grouped df pc rc qc n := by
  unfold rq1_grouped
  rw [groupKeys_col_filter_key]
  congr 1
  apply mapM_congr
  intro k hk
  rw [groupRows_filter_key df pc k (groupKeys_ne_missing hk)]
  rfl

/-! ## C10 -/

/-- C10: in every group-by aggregation of the app — revenue by product (line
121), carrier distribution (lines 128-129), customer-segment revenue (line
216) and the RQ1 grouping (lines 161-164) — rows with a missing value in the
grouping column are excluded: no group is labelled by the missing value, and
deleting exactly those rows changes no aggregation output, so they contribute
to no group's sum or count. -/
theorem groupby_excludes_missing (df : DataFrame) (pc rc cc sc : String)
    (qc : Option String) (n : Nat) :
    (∀ G, groupbySum df pc rc = Except.ok G → ∀ p ∈ G, p.1 ≠ Cell.missing) ∧
    (∀ p ∈ carrier_counts df cc, p.1 ≠ Cell.missing) ∧
    rev_by_prod ⟨df.cols, df.rows.filter (fun r => cellAt r (colIdx df pc) ≠ Cell.missing)⟩ pc rc
      = rev_by_prod df pc rc ∧
    carrier_counts ⟨df.cols, df.rows.filter (fun r => cellAt r (colIdx df cc) ≠ Cell.missing)⟩ cc
      = carrier_counts df cc ∧
    seg ⟨df.cols, df.rows.filter (fun r => cellAt r (colIdx df sc) ≠ Cell.missing)⟩ sc rc
      = seg df sc rc ∧
    rq1_grouped ⟨df.cols, df.rows.filter (fun r => cellAt r (colIdx df pc) ≠ Cell.missing)⟩
        pc rc qc n
      = rq1_grouped df pc rc qc n := by
  refine ⟨?_, ?_, ?_, ?_, ?_, rq1_grouped_drop_missing df pc rc qc n⟩
  · intro G hG p hp
    obtain ⟨k, hk, hfk⟩ := mapM_ok_inv hG p hp
    cases hs : seriesSum ((groupRows df pc k).map (fun r => cellAt r (colIdx df rc))) with
    | error e =>
      rw [hs] at hfk
      exact absurd hfk (by simp [Except.map])
    | ok s =>
      rw [hs] at hfk
      have hps : p = (k, s) := by simpa [Except.map] using hfk.symm
      rw [hps]
      exact groupKeys_ne_missing hk
  · intro p hp
    simp only [carrier_counts, value_counts] at hp
    have hp' := (sortValuesDesc_perm _ _).mem_iff.mp hp
    obtain ⟨k, hk, hkp⟩ := List.mem_map.mp hp'
    rw [← hkp]
    exact groupKeys_ne_missing hk
  · unfold rev_by_prod
    rw [groupbySum_drop_missing]
  · unfold carrier_counts
    rw [col_filter_key, value_counts_drop_missing]
  · unfold seg
    rw [groupbySum_drop_missing]

/-- Witness for C10 on a frame with one missing product value: the single
group is labelled "A", and every aggregation is unchanged by deleting the
missing-key row. -/
theorem groupby_excludes_missing_witness :
    (Cell.str "A", Cell.num 5).1 ≠ Cell.missing ∧
    (Cell.str "A", 1).1 ≠ Cell.missing ∧
    rev_by_prod ⟨dfMixedKeys.cols, dfMixedKeys.rows.filter
        (fun r => cellAt r (colIdx dfMixedKeys "Product Name") ≠ Cell.missing)⟩
        "Product Name" "Revenue"
      = rev_by_prod dfMixedKeys "Product Name" "Revenue" ∧
    carrier_counts ⟨dfMixedKeys.cols, dfMixedKeys.rows.filter
        (fun r => cellAt r (colIdx dfMixedKeys "Product Name") ≠ Cell.missing)⟩
        "Product Name"
      = carrier_counts dfMixedKeys "Product Name" ∧
    seg ⟨dfMixedKeys.cols, dfMixedKeys.rows.filter
        (fun r => cellAt r (colIdx dfMixedKeys "Product Name") ≠ Cell.missing)⟩
        "Product Name" "Revenue"
      = seg dfMixedKeys "Product Name" "Revenue" ∧
    rq1_grouped ⟨dfMixedKeys.cols, dfMixedKeys.rows.filter
        (fun r => cellAt r (colIdx dfMixedKeys "Product Name") ≠ Cell.missing)⟩
        "Product Name" "Revenue" none 5
      = rq1_grouped dfMixedKeys "Product Name" "Revenue" none 5 :=
  ⟨(groupby_excludes_missing dfMixedKeys "Product Name" "Revenue" "Product Name"
      "Product Name" none 5).1 [(Cell.str "A", Cell.num 5)] rfl
      (Cell.str "A", Cell.num 5) (List.mem_singleton.mpr rfl),
   (groupby_excludes_missing dfMixedKeys "Product Name" "Revenue" "Product Name"
      "Product Name" none 5).2.1 (Cell.str "A", 1) (List.mem_singleton.mpr rfl),
   (groupby_excludes_missing dfMixedKeys "Product Name" "Revenue" "Product Name"
      "Product Name" none 5).2.2.1,
   (groupby_excludes_missing dfMixedKeys "Product Name" "Revenue" "Product Name"
      "Product Name" none 5).2.2.2.1,
   (groupby_excludes_missing dfMixedKeys "Product Name" "Revenue" "Product Name"
      "Product Name" none 5).2.2.2.2.1,
   (groupby_excludes_missing dfMixedKeys "Product Name" "Revenue" "Product Name"
      "Product Name" none 5).2.2.2.2.2⟩

/-! ## C8 -/

/-- C8: for every dataset whose revenue column carries no text, the
revenue-by-product grouping succeeds, every per-group total is a number, and
the sum of the per-group totals equals the sum of the revenue column
restricted to the rows whose product value is non-missing. -/
theorem rev_by_prod_sum_partition (df : DataFrame) (pc rc : String)
    (h : ∀ r ∈ df.rows, isNumOrMissing (cellAt r (colIdx df rc)) = true) :
    ∃ G S,
      groupbySum df pc rc = Except.ok G ∧
      seriesSum ((df.rows.filter (fun r => cellAt r (colIdx df pc) ≠ Cell.missing)).map
          (fun r => cellAt r (colIdx df rc))) = Except.ok (Cell.num S) ∧
      (G.map (fun p => cellQ p.2)).sum = S ∧
      (∀ p ∈ G, ∃ q, p.2 = Cell.num q) := by
  have hsub : ∀ k : Cell, ∀ c ∈ (groupRows df pc k).map (fun r => cellAt r (colIdx df rc)),
      isNumOrMissing c = true := by
    intro k c hc
    obtain ⟨r, hr, hrc⟩ := List.mem_map.mp hc
    rw [← hrc]
    exact h r (List.mem_filter.mp hr).1
  have hstep : ∀ k ∈ groupKeys (df.col pc),
      Except.map (fun s => (k, s))
          (seriesSum ((groupRows df pc k).map (fun r => cellAt r (colIdx df rc))))
        = Except.ok (k, Cell.num ((((groupRows df pc k).map
            (fun r => cellAt r (colIdx df rc))).filterMap numVal).sum)) := by
    intro k _
    rw [seriesSum_num _ (hsub k)]
    rfl
  have hG : groupbySum df pc rc = Except.ok ((groupKeys (df.col pc)).map
      (fun k => (k, Cell.num ((((groupRows df pc k).map
        (fun r => cellAt r (colIdx df rc))).filterMap numVal).sum)))) :=
    mapM_ok _ _ _ hstep
  have hfil : ∀ c ∈ (df.rows.filter (fun r => cellAt r (colIdx df pc) ≠ Cell.missing)).map
      (fun r => cellAt r (colIdx df rc)), isNumOrMissing c = true := by
    intro c hc
    obtain ⟨r, hr, hrc⟩ := List.mem_map.mp hc
    rw [← hrc]
    exact h r (List.mem_filter.mp hr).1
  refine ⟨_, _, hG, seriesSum_num _ hfil, ?_, ?_⟩
  · rw [List.map_map]
    have h1 : ((fun p => cellQ (Prod.snd p)) ∘ (fun k => (k, Cell.num ((((groupRows df pc k).map
        (fun r => cellAt r (colIdx df rc))).filterMap numVal).sum))))
        = fun k => ((df.rows.filter (fun x => cellAt x (colIdx df pc) = k)).filterMap
            (fun x => numVal (cellAt x (colIdx df rc)))).sum := by
      funext k
      simp only [Function.comp, cellQ]
      rw [groupRows, List.filterMap_map]
      rfl
    rw [h1]
    rw [sum_over_keys (fun x => cellAt x (colIdx df pc))
      (fun x => numVal (cellAt x (colIdx df rc))) df.rows
      (groupKeys (df.col pc)) (groupKeys_nodup _)]
    have h3 : df.rows.filter (fun x => decide (cellAt x (colIdx df pc) ∈ groupKeys (df.col pc)))
        = df.rows.filter (fun r => cellAt r (colIdx df pc) ≠ Cell.missing) := by
      apply List.filter_congr
      intro r hr
      have hmem : cellAt r (colIdx df pc) ∈ df.col pc := List.mem_map_of_mem _ hr
      by_cases hm : cellAt r (colIdx df pc) = Cell.missing
      · simp [hm, mem_groupKeys]
      · simp [mem_groupKeys, hmem, hm]
    rw [h3, List.filterMap_map]
    rfl
  · intro p hp
    obtain ⟨k, hk, hkp⟩ := List.mem_map.mp hp
    exact ⟨_, by rw [← hkp]⟩

/-- Witness for C8: on the mixed-keys frame the grouping gives the single
group "A" whose total, 5, is the revenue sum over the one row with a
non-missing product. -/
theorem rev_by_prod_sum_partition_witness :
    ∃ G S,
      groupbySum dfMixedKeys "Product Name" "Revenue" = Except.ok G ∧
      seriesSum ((dfMixedKeys.rows.filter
          (fun r => cellAt r (colIdx dfMixedKeys "Product Name") ≠ Cell.missing)).map
          (fun r => cellAt r (colIdx dfMixedKeys "Revenue"))) = Except.ok (Cell.num S) ∧
      (G.map (fun p => cellQ p.2)).sum = S ∧
      (∀ p ∈ G, ∃ q, p.2 = Cell.num q) :=
  rev_by_prod_sum_partition dfMixedKeys "Product Name" "Revenue" (by decide)

/-- Membership in a truncated sort implies membership in the base list. -/
theorem mem_of_mem_take_sort {α : Type} {key : α → Cell} {l : List α} {n : Nat} {x : α}
    (hx : x ∈ (sortValuesDesc key l).take n) : x ∈ l :=
  (sortValuesDesc_perm key l).mem_iff.mp (List.mem_of_mem_take hx)

/-! ## C6 amended -/

/-- C6 (amended): when the quantity role is unresolved, the RQ1 per-group item
count falls back to pandas "count" on the revenue column — the number of the
group's rows whose revenue is non-missing — which coincides with a row count
per group exactly when the group has no missing revenue value. -/
theorem rq1_items_fallback_nonmissing_count (df : DataFrame) (pc rc : String) (n : Nat)
    (h : ∀ r ∈ df.rows, isNumOrMissing (cellAt r (colIdx df rc)) = true) :
    ∃ G, rq1_grouped df pc rc none n = Except.ok G ∧
      (∀ g ∈ G, g.items_sold = Cell.num ((seriesCount ((groupRows df pc g.product).map
          (fun r => cellAt r (colIdx df rc)))) : ℚ)) ∧
      (∀ g ∈ G, (∀ r ∈ groupRows df pc g.product, cellAt r (colIdx df rc) ≠ Cell.missing) →
        g.items_sold = Cell.num (((groupRows df pc g.product).length : ℚ))) := by
  have hsub : ∀ k : Cell, ∀ c ∈ (groupRows df pc k).map (fun r => cellAt r (colIdx df rc)),
      isNumOrMissing c = true := by
    intro k c hc
    obtain ⟨r, hr, hrc⟩ := List.mem_map.mp hc
    rw [← hrc]
    exact h r (List.mem_filter.mp hr).1
  have hstep : ∀ k ∈ groupKeys (df.col pc),
      (do
        let tr ← seriesSum ((groupRows df pc k).map (fun r => cellAt r (colIdx df rc)))
        let it ← rq1_items_sold df rc none (groupRows df pc k)
        pure (RQ1Row.mk k tr it) : Except String RQ1Row)
        = Except.ok (RQ1Row.mk k
            (Cell.num ((((groupRows df pc k).map
              (fun r => cellAt r (colIdx df rc))).filterMap numVal).sum))
            (Cell.num ((seriesCount ((groupRows df pc k).map
              (fun r => cellAt r (colIdx df rc)))) : ℚ))) := by
    intro k _
    rw [seriesSum_num _ (hsub k), except_bind_ok]
    rfl
  have hG := mapM_ok _ _ _ hstep
  have hrq : rq1_grouped df pc rc none n = Except.ok ((sortValuesDesc
      (fun g => g.total_revenue) ((groupKeys (df.col pc)).map (fun k => RQ1Row.mk k
        (Cell.num ((((groupRows df pc k).map
          (fun r => cellAt r (colIdx df rc))).filterMap numVal).sum))
        (Cell.num ((seriesCount ((groupRows df pc k).map
          (fun r => cellAt r (colIdx df rc)))) : ℚ))))).take n) := by
    unfold rq1_grouped
    rw [hG, except_bind_ok]
    rfl
  refine ⟨_, hrq, ?_, ?_⟩
  · intro g hg
    have hg' := mem_of_mem_take_sort hg
    obtain ⟨k, hk, hkg⟩ := List.mem_map.mp hg'
    rw [← hkg]
  · intro g hg hnom
    have hg' := mem_of_mem_take_sort hg
    obtain ⟨k, hk, hkg⟩ := List.mem_map.mp hg'
    subst hkg
    have hall : ∀ c ∈ (groupRows df pc k).map (fun r => cellAt r (colIdx df rc)),
        c ≠ Cell.missing := by
      intro c hc
      obtain ⟨r, hr, hrc⟩ := List.mem_map.mp hc
      rw [← hrc]
      exact hnom r hr
    have hfix : nonMissing ((groupRows df pc k).map (fun r => cellAt r (colIdx df rc)))
        = (groupRows df pc k).map (fun r => cellAt r (colIdx df rc)) :=
      List.filter_eq_self.mpr (fun c hc => by simpa using hall c hc)
    have hcl : seriesCount ((groupRows df pc k).map (fun r => cellAt r (colIdx df rc)))
        = (groupRows df pc k).length := by
      show (nonMissing _).length = _
      rw [hfix, List.length_map]
    show Cell.num ((seriesCount ((groupRows df pc k).map
        (fun r => cellAt r (colIdx df rc)))) : ℚ) = _
    rw [hcl]

/-- Witness for the amended C6 on the frame with a missing revenue value: the
single group "A" reports items_sold = 1, the count of its non-missing revenue
cells, though the group has 2 rows. -/
theorem rq1_items_fallback_nonmissing_count_witness :
    ∃ G, rq1_grouped dfRevMissing "Product Name" "Revenue" none 10 = Except.ok G ∧
      (∀ g ∈ G, g.items_sold = Cell.num ((seriesCount ((groupRows dfRevMissing "Product Name"
          g.product).map (fun r => cellAt r (colIdx dfRevMissing "Revenue")))) : ℚ)) ∧
      (∀ g ∈ G, (∀ r ∈ groupRows dfRevMissing "Product Name" g.product,
          cellAt r (colIdx dfRevMissing "Revenue") ≠ Cell.missing) →
        g.items_sold = Cell.num (((groupRows dfRevMissing "Product Name" g.product).length : ℚ))) :=
  rq1_items_fallback_nonmissing_count dfRevMissing "Product Name" "Revenue" 10 (by decide)

/-! ## C7 amended -/

/-- C7 (amended): the focus list of line 170 is the head of the ALREADY
top-N-truncated table, so the price-distribution view restricts the frame to
the top min(N, 10) product groups of the revenue-by-product ranking — not to
the top-10 groups independently of N. -/
theorem rq1_focus_top_min_n_10 (df : DataFrame) (pc rc : String) (qc : Option String)
    (n : Nat)
    (h : ∀ r ∈ df.rows, isNumOrMissing (cellAt r (colIdx df rc)) = true)
    (hq : match qc with
      | some q => ∀ r ∈ df.rows, isNumOrMissing (cellAt r (colIdx df q)) = true
      | none => True) :
    ∃ F, rq1_grouped df pc rc qc ((groupKeys (df.col pc)).length) = Except.ok F ∧
      rq1_focus df pc rc qc n = Except.ok ((F.map (fun g => g.product)).take (min n 10)) := by
  have hsub : ∀ (c0 : String) (hnum : ∀ r ∈ df.rows, isNumOrMissing (cellAt r (colIdx df c0)) = true)
      (k : Cell), ∀ c ∈ (groupRows df pc k).map (fun r => cellAt r (colIdx df c0)),
      isNumOrMissing c = true := by
    intro c0 hnum k c hc
    obtain ⟨r, hr, hrc⟩ := List.mem_map.mp hc
    rw [← hrc]
    exact hnum r (List.mem_filter.mp hr).1
  obtain ⟨gs, hgslen, hGS⟩ : ∃ gs, gs.length = (groupKeys (df.col pc)).length ∧
      ∀ m, rq1_grouped df pc rc qc m
        = Except.ok ((sortValuesDesc (fun g => g.total_revenue) gs).take m) := by
    cases qc with
    | none =>
      have hstep : ∀ k ∈ groupKeys (df.col pc),
          (do
            let tr ← seriesSum ((groupRows df pc k).map (fun r => cellAt r (colIdx df rc)))
            let it ← rq1_items_sold df rc none (groupRows df pc k)
            pure (RQ1Row.mk k tr it) : Except String RQ1Row)
            = Except.ok (RQ1Row.mk k
                (Cell.num ((((groupRows df pc k).map
                  (fun r => cellAt r (colIdx df rc))).filterMap numVal).sum))
                (Cell.num ((seriesCount ((groupRows df pc k).map
                  (fun r => cellAt r (colIdx df rc)))) : ℚ))) := by
        intro k _
        rw [seriesSum_num _ (hsub rc h k), except_bind_ok]
        rfl
      have hG := mapM_ok _ _ _ hstep
      refine ⟨(groupKeys (df.col pc)).map (fun k => RQ1Row.mk k
          (Cell.num ((((groupRows df pc k).map
            (fun r => cellAt r (colIdx df rc))).filterMap numVal).sum))
          (Cell.num ((seriesCount ((groupRows df pc k).map
            (fun r => cellAt r (colIdx df rc)))) : ℚ))),
        List.length_map _ _, fun m => ?_⟩
      unfold rq1_grouped
      rw [hG, except_bind_ok]
      rfl
    | some q =>
      have hstep : ∀ k ∈ groupKeys (df.col pc),
          (do
            let tr ← seriesSum ((groupRows df pc k).map (fun r => cellAt r (colIdx df rc)))
            let it ← rq1_items_sold df rc (some q) (groupRows df pc k)
            pure (RQ1Row.mk k tr it) : Except String RQ1Row)
            = Except.ok (RQ1Row.mk k
                (Cell.num ((((groupRows df pc k).map
                  (fun r => cellAt r (colIdx df rc))).filterMap numVal).sum))
                (Cell.num ((((groupRows df pc k).map
                  (fun r => cellAt r (colIdx df q))).filterMap numVal).sum))) := by
        intro k _
        rw [seriesSum_num _ (hsub rc h k), except_bind_ok]
        show Except.map _ (seriesSum ((groupRows df pc k).map
          (fun r => cellAt r (colIdx df q)))) = _
        rw [seriesSum_num _ (hsub q hq k)]
        rfl
      have hG := mapM_ok _ _ _ hstep
      refine ⟨(groupKeys (df.col pc)).map (fun k => RQ1Row.mk k
          (Cell.num ((((groupRows df pc k).map
            (fun r => cellAt r (colIdx df rc))).filterMap numVal).sum))
          (Cell.num ((((groupRows df pc k).map
            (fun r => cellAt r (colIdx df q))).filterMap numVal).sum))),
        List.length_map _ _, fun m => ?_⟩
      unfold rq1_grouped
      rw [hG, except_bind_ok]
      rfl
  have hlen : (sortValuesDesc (fun g => g.total_revenue) gs).length
      = (groupKeys (df.col pc)).length :=
    (sortValuesDesc_perm _ _).length_eq.trans hgslen
  have htake : (sortValuesDesc (fun g => g.total_revenue) gs).take
      ((groupKeys (df.col pc)).length) = sortValuesDesc (fun g => g.total_revenue) gs := by
    rw [← hlen]
    exact List.take_length _
  refine ⟨sortValuesDesc (fun g => g.total_revenue) gs, by rw [hGS, htake], ?_⟩
  unfold rq1_focus
  rw [hGS n]
  simp only [Except.map]
  rw [List.map_take, List.take_take, min_comm]

/-- Witness for the amended C7: on the six-product frame with N = 5 the focus
is the top min(5, 10) = 5 products of the full ranking. -/
theorem rq1_focus_top_min_n_10_witness :
    ∃ F, rq1_grouped dfSix "Product Name" "Revenue" none
        ((groupKeys (dfSix.col "Product Name")).length) = Except.ok F ∧
      rq1_focus dfSix "Product Name" "Revenue" none 5 =
        Except.ok ((F.map (fun g => g.product)).take (min 5 10)) :=
  rq1_focus_top_min_n_10 dfSix "Product Name" "Revenue" none 5 (by decide) trivial

/-- Evaluation of the RQ1 grouping over text-free revenue (and quantity)
columns: it succeeds for every N, producing the N-prefix of the descending
sort of one row per product group, each with a numeric total revenue. -/
theorem rq1_grouped_eval (df : DataFrame) (pc rc : String) (qc : Option String)
    (h : ∀ r ∈ df.rows, isNumOrMissing (cellAt r (colIdx df rc)) = true)
    (hq : match qc with
      | some q => ∀ r ∈ df.rows, isNumOrMissing (cellAt r (colIdx df q)) = true
      | none => True) :
    ∃ gs : List RQ1Row, gs.length = (groupKeys (df.col pc)).length ∧
      (∀ g ∈ gs, ∃ qv, g.total_revenue = Cell.num qv) ∧
      ∀ m, rq1_grouped df pc rc qc m
        = Except.ok ((sortValuesDesc (fun g => g.total_revenue) gs).take m) := by
  have hsub : ∀ (c0 : String)
      (hnum : ∀ r ∈ df.rows, isNumOrMissing (cellAt r (colIdx df c0)) = true)
      (k : Cell), ∀ c ∈ (groupRows df pc k).map (fun r => cellAt r (colIdx df c0)),
      isNumOrMissing c = true := by
    intro c0 hnum k c hc
    obtain ⟨r, hr, hrc⟩ := List.mem_map.mp hc
    rw [← hrc]
    exact hnum r (List.mem_filter.mp hr).1
  cases qc with
  | none =>
    have hstep : ∀ k ∈ groupKeys (df.col pc),
        (do
          let tr ← seriesSum ((groupRows df pc k).map (fun r => cellAt r (colIdx df rc)))
          let it ← rq1_items_sold df rc none (groupRows df pc k)
          pure (RQ1Row.mk k tr it) : Except String RQ1Row)
          = Except.ok (RQ1Row.mk k
              (Cell.num ((((groupRows df pc k).map
                (fun r => cellAt r (colIdx df rc))).filterMap numVal).sum))
              (Cell.num ((seriesCount ((groupRows df pc k).map
                (fun r => cellAt r (colIdx df rc)))) : ℚ))) := by
      intro k _
      rw [seriesSum_num _ (hsub rc h k), except_bind_ok]
      rfl
    have hG := mapM_ok _ _ _ hstep
    refine ⟨(groupKeys (df.col pc)).map (fun k => RQ1Row.mk k
        (Cell.num ((((groupRows df pc k).map
          (fun r => cellAt r (colIdx df rc))).filterMap numVal).sum))
        (Cell.num ((seriesCount ((groupRows df pc k).map
          (fun r => cellAt r (colIdx df rc)))) : ℚ))),
      List.length_map _ _, ?_, fun m => ?_⟩
    · intro g hg
      obtain ⟨k, hk, hkg⟩ := List.mem_map.mp hg
      exact ⟨_, by rw [← hkg]⟩
    · unfold rq1_grouped
      rw [hG, except_bind_ok]
      rfl
  | some q =>
    have hstep : ∀ k ∈ groupKeys (df.col pc),
        (do
          let tr ← seriesSum ((groupRows df pc k).map (fun r => cellAt r (colIdx df rc)))
          let it ← rq1_items_sold df rc (some q) (groupRows df pc k)
          pure (RQ1Row.mk k tr it) : Except String RQ1Row)
          = Except.ok (RQ1Row.mk k
              (Cell.num ((((groupRows df pc k).map
                (fun r => cellAt r (colIdx df rc))).filterMap numVal).sum))
              (Cell.num ((((groupRows df pc k).map
                (fun r => cellAt r (colIdx df q))).filterMap numVal).sum))) := by
      intro k _
      rw [seriesSum_num _ (hsub rc h k), except_bind_ok]
      show Except.map _ (seriesSum ((groupRows df pc k).map
        (fun r => cellAt r (colIdx df q)))) = _
      rw [seriesSum_num _ (hsub q hq k)]
      rfl
    have hG := mapM_ok _ _ _ hstep
    refine ⟨(groupKeys (df.col pc)).map (fun k => RQ1Row.mk k
        (Cell.num ((((groupRows df pc k).map
          (fun r => cellAt r (colIdx df rc))).filterMap numVal).sum))
        (Cell.num ((((groupRows df pc k).map
          (fun r => cellAt r (colIdx df q))).filterMap numVal).sum))),
      List.length_map _ _, ?_, fun m => ?_⟩
    · intro g hg
      obtain ⟨k, hk, hkg⟩ := List.mem_map.mp hg
      exact ⟨_, by rw [← hkg]⟩
    · unfold rq1_grouped
      rw [hG, except_bind_ok]
      rfl

/-! ## C5 -/

/-- C5: for every dataset with resolved product and revenue roles whose
revenue column (and quantity column, when that role is resolved) carries no
text, and every N in [5, 30], the RQ1 top-N selection returns exactly
min(N, number of distinct product groups) rows, sorted descending by the
per-group total revenue, every total being a number. -/
theorem rq1_topn_selection (df : DataFrame) (pc rc : String) (n : Nat)
    (hpc : prod_col df.cols = some pc) (hrc : rev_col df.cols = some rc)
    (hn : 5 ≤ n ∧ n ≤ 30)
    (h : ∀ r ∈ df.rows, isNumOrMissing (cellAt r (colIdx df rc)) = true)
    (hq : match qty_col df.cols with
      | some q => ∀ r ∈ df.rows, isNumOrMissing (cellAt r (colIdx df q)) = true
      | none => True) :
    ∃ G, rq1_grouped df pc rc (qty_col df.cols) n = Except.ok G ∧
      G.length = min n ((groupKeys (df.col pc)).length) ∧
      List.Sorted (fun a b => cellQ b.total_revenue ≤ cellQ a.total_revenue) G ∧
      (∀ g ∈ G, ∃ qv, g.total_revenue = Cell.num qv) := by
  obtain ⟨gs, hgslen, hnum, hGS⟩ := rq1_grouped_eval df pc rc (qty_col df.cols) h hq
  refine ⟨_, hGS n, ?_, ?_, ?_⟩
  · rw [List.length_take, (sortValuesDesc_perm _ _).length_eq, hgslen]
  · have hsorted := sortValuesDesc_sorted (fun g : RQ1Row => g.total_revenue) gs
    have hsorted' : List.Pairwise
        (fun x y => descBefore x.total_revenue y.total_revenue = true)
        ((sortValuesDesc (fun g => g.total_revenue) gs).take n) :=
      List.Pairwise.sublist (List.take_sublist _ _) hsorted
    apply List.Pairwise.imp_of_mem _ hsorted'
    intro a b ha hb hr
    obtain ⟨qa, hqa⟩ := hnum a (mem_of_mem_take_sort ha)
    obtain ⟨qb, hqb⟩ := hnum b (mem_of_mem_take_sort hb)
    rw [hqa, hqb] at hr
    rw [hqa, hqb]
    simp only [descBefore, decide_eq_true_eq] at hr
    simpa [cellQ] using hr
  · intro g hg
    exact hnum g (mem_of_mem_take_sort hg)

/-- Witness for C5: on the two-product frame with N = 5 the selection returns
min(5, 2) = 2 rows sorted descending by total revenue. -/
theorem rq1_topn_selection_witness :
    ∃ G, rq1_grouped dfTwoProducts "Product Name" "Revenue"
        (qty_col dfTwoProducts.cols) 5 = Except.ok G ∧
      G.length = min 5 ((groupKeys (dfTwoProducts.col "Product Name")).length) ∧
      List.Sorted (fun a b => cellQ b.total_revenue ≤ cellQ a.total_revenue) G ∧
      (∀ g ∈ G, ∃ qv, g.total_revenue = Cell.num qv) :=
  rq1_topn_selection dfTwoProducts "Product Name" "Revenue" 5 rfl rfl
    (by decide) (by decide) trivial

/-! ## C4 amended -/

/-- No NA token parses as a number. -/
theorem na_not_numeric : ∀ t ∈ na_tokens, parseNumToken t = none := by decide

/-- mapM of numVal over wrapped numbers recovers them. -/
theorem mapM_numVal_map (qs : List ℚ) : (qs.map Cell.num).mapM numVal = some qs := by
  induction qs with
  | nil => rfl
  | cons q qs ih =>
    rw [List.map_cons, List.mapM_cons, ih]
    rfl

/-- C4 (amended): tokens on the CSV parser's NA list — "N/A" among them — are
excluded from sum, count and mean over the parsed column: the sum is the sum
of the numeric tokens alone, the count ignores the NA tokens, and the mean
divides by the number of numeric tokens only, so NA tokens are excluded
rather than treated as zero.  Non-numeric text outside the NA list is not
excluded: it makes the whole column textual (see the counterexample). -/
theorem na_tokens_excluded (raw : List String)
    (h : ∀ t ∈ raw, na_tokens.contains t = true ∨ (parseNumToken t).isSome = true) :
    seriesSum (parseColumn raw) = Except.ok (Cell.num ((raw.filterMap parseNumToken).sum)) ∧
    seriesCount (parseColumn raw) = (raw.filterMap parseNumToken).length ∧
    ((raw.filterMap parseNumToken) ≠ [] →
      seriesMean (parseColumn raw) = Except.ok (Cell.num ((raw.filterMap parseNumToken).sum
        / ((raw.filterMap parseNumToken).length : ℚ)))) := by
  have hall : raw.all (fun t => na_tokens.contains t || (parseNumToken t).isSome) = true := by
    rw [List.all_eq_true]
    intro t ht
    rcases h t ht with h1 | h1
    · rw [h1]
      rfl
    · rw [h1, Bool.or_true]
  have hpc : parseColumn raw = raw.map (fun t =>
      if na_tokens.contains t then Cell.missing
      else match parseNumToken t with
        | some q => Cell.num q
        | none => Cell.missing) := by
    unfold parseColumn
    rw [if_pos hall]
  have hcell : ∀ t ∈ raw, numVal ((fun t =>
      if na_tokens.contains t then Cell.missing
      else match parseNumToken t with
        | some q => Cell.num q
        | none => Cell.missing) t) = parseNumToken t := by
    intro t ht
    show numVal (if na_tokens.contains t then Cell.missing
      else match parseNumToken t with
        | some q => Cell.num q
        | none => Cell.missing) = parseNumToken t
    by_cases hna : na_tokens.contains t = true
    · rw [if_pos hna, na_not_numeric t (List.mem_of_elem_eq_true hna)]
      rfl
    · rcases h t ht with h1 | h1
      · exact absurd h1 hna
      · obtain ⟨q, hq⟩ := Option.isSome_iff_exists.mp h1
        rw [if_neg hna, hq]
        rfl
  have hnum : ∀ c ∈ parseColumn raw, isNumOrMissing c = true := by
    rw [hpc]
    intro c hc
    obtain ⟨t, ht, htc⟩ := List.mem_map.mp hc
    rw [← htc]
    by_cases hna : na_tokens.contains t = true
    · rw [if_pos hna]
      rfl
    · rw [if_neg hna]
      cases parseNumToken t <;> rfl
  have hfm : (parseColumn raw).filterMap numVal = raw.filterMap parseNumToken := by
    rw [hpc, List.filterMap_map]
    exact List.filterMap_congr (fun t ht => hcell t ht)
  refine ⟨?_, ?_, ?_⟩
  · rw [seriesSum_num _ hnum, hfm]
  · show (nonMissing (parseColumn raw)).length = _
    rw [nonMissing_eq_map _ hnum, List.length_map, hfm]
  · intro hne
    unfold seriesMean
    rw [nonMissing_eq_map _ hnum, hfm, mapM_numVal_map]
    cases hqs : raw.filterMap parseNumToken with
    | nil => exact absurd hqs hne
    | cons q qs => rfl

/-- Witness for the amended C4: over the raw column ["7", "N/A"] the sum,
count and mean all ignore the "N/A" token. -/
theorem na_tokens_excluded_witness :
    seriesSum (parseColumn ["7", "N/A"]) =
      Except.ok (Cell.num ((["7", "N/A"].filterMap parseNumToken).sum)) ∧
    seriesCount (parseColumn ["7", "N/A"]) = (["7", "N/A"].filterMap parseNumToken).length ∧
    seriesMean (parseColumn ["7", "N/A"]) =
      Except.ok (Cell.num ((["7", "N/A"].filterMap parseNumToken).sum
        / ((["7", "N/A"].filterMap parseNumToken).length : ℚ))) :=
  ⟨(na_tokens_excluded ["7", "N/A"] (by decide)).1,
   (na_tokens_excluded ["7", "N/A"] (by decide)).2.1,
   (na_tokens_excluded ["7", "N/A"] (by decide)).2.2 (by decide)⟩

/-! ## C3 amended -/

/-- C3 (amended): load errors are caught at the point of use — the load
handler converts any raised error into a message and never lets one escape —
and a view whose required role is unresolved signals unavailability instead
of computing on a missing column; but an error raised inside a view's own
aggregation is not caught (see the counterexample). -/
theorem error_handling_load_and_degradation (use_local : Bool) (uploaded : Option String)
    (data_url : String) (fetch : LoadSource → Except String DataFrame)
    (df : DataFrame) (e : String) :
    load_btn_action use_local uploaded data_url fetch ≠ LoadOutcome.uncaught e ∧
    (supp_col df.cols = none →
      suppliers_view df = ViewOutcome.notice "Supplier column not found.") := by
  constructor
  · unfold load_btn_action
    cases chooseSource use_local uploaded data_url with
    | none => simp
    | some s => cases hf : fetch s <;> simp [hf]
  · intro hs
    unfold suppliers_view
    rw [hs]

/-- Witness for the amended C3: a failing local read is converted to an error
message rather than escaping, and a frame without a supplier column renders
the supplier notice. -/
theorem error_handling_load_and_degradation_witness :
    load_btn_action true none "" (fun _ => Except.error "read failure")
      ≠ LoadOutcome.uncaught "read failure" ∧
    suppliers_view ⟨["Product Name"], []⟩ =
      ViewOutcome.notice "Supplier column not found." :=
  ⟨(error_handling_load_and_degradation true none "" (fun _ => Except.error "read failure")
      ⟨["Product Name"], []⟩ "read failure").1,
   (error_handling_load_and_degradation true none "" (fun _ => Except.error "read failure")
      ⟨["Product Name"], []⟩ "read failure").2 rfl⟩
